import Mathlib

/-!
Verification of the constellation-types data contracts.

The repository consists of Zod schemas (request/response shapes) for a
code-intelligence service. We give a shallow embedding: JSON values are an
inductive type, each Zod schema chain becomes a parsing function
`Json → Option α` that returns the parsed value exactly when the schema
accepts the input, and each `z.object` schema becomes a parser into a Lean
structure mirroring the inferred TypeScript type. Zod object schemas are in
"strip" mode by default (unknown keys are ignored, validation is per known
key); `.strict()` rejects any key. Numbers are modelled as rationals so the
`.int()` refinement is meaningful.
-/

/-- JSON values, the inputs of all schema parsers. -/
inductive Json where
  | jnum (q : Rat)
  | jstr (s : String)
  | jbool (b : Bool)
  | jnull
  | jarr (elems : List Json)
  | jobj (fields : List (String × Json))

/-- Coercion of a JSON value to a number, as `z.number()` does. -/
def asNum : Json → Option Rat
  | .jnum q => some q
  | _ => none

/-- Coercion of a JSON value to a string, as `z.string()` does. -/
def asStr : Json → Option String
  | .jstr s => some s
  | _ => none

/-- Coercion of a JSON value to a boolean, as `z.boolean()` does. -/
def asBool : Json → Option Bool
  | .jbool b => some b
  | _ => none

/-- Coercion of a JSON value to an array. -/
def asArr : Json → Option (List Json)
  | .jarr xs => some xs
  | _ => none

/-- Coercion of a JSON value to an object (its field list). -/
def asObj : Json → Option (List (String × Json))
  | .jobj fs => some fs
  | _ => none

/-- Lookup of a key in an object's field list (first occurrence). -/
def getKey (fields : List (String × Json)) (k : String) : Option Json :=
  match fields with
  | [] => none
  | (k2, v) :: rest => if k2 = k then some v else getKey rest k

/-- The `.int()` refinement: a rational passes exactly when its denominator
is 1, and the parsed value is its numerator. -/
def intCheck (q : Rat) : Option Int :=
  if q.den = 1 then some q.num else none

/-- The chain `z.number().int().positive().max(m)`. -/
def zPosIntMax (m : Int) (j : Json) : Option Int :=
  (asNum j).bind fun q => (intCheck q).bind fun n =>
    if 0 < n ∧ n ≤ m then some n else none

/-- The chain `z.number().int().nonnegative()`. -/
def zNonnegInt (j : Json) : Option Int :=
  (asNum j).bind fun q => (intCheck q).bind fun n =>
    if 0 ≤ n then some n else none

/-- The chain `z.number().int().nonnegative().max(m)`. -/
def zNonnegIntMax (m : Int) (j : Json) : Option Int :=
  (asNum j).bind fun q => (intCheck q).bind fun n =>
    if 0 ≤ n ∧ n ≤ m then some n else none

/-- The chain `z.number().int().min(lo).max(hi)`. -/
def zIntMinMax (lo hi : Int) (j : Json) : Option Int :=
  (asNum j).bind fun q => (intCheck q).bind fun n =>
    if lo ≤ n ∧ n ≤ hi then some n else none

/-- The chain `z.string().min(k)`. -/
def zStrMin (k : Nat) (j : Json) : Option String :=
  (asStr j).bind fun s => if k ≤ s.length then some s else none

/-- The chain `z.string().min(lo).max(hi)`. -/
def zStrMinMax (lo hi : Nat) (j : Json) : Option String :=
  (asStr j).bind fun s => if lo ≤ s.length ∧ s.length ≤ hi then some s else none

/-- The schema `z.array(p)`: every element must parse. -/
def zArrayOf {α : Type} (p : Json → Option α) (j : Json) : Option (List α) :=
  (asArr j).bind fun xs => xs.mapM p

/-- The schema `z.array(z.string())`. -/
def zStrArray (j : Json) : Option (List String) :=
  zArrayOf asStr j

/-- The schema `z.enum(vals)`: a string drawn from a fixed vocabulary. -/
def zEnum (vals : List String) (j : Json) : Option String :=
  (asStr j).bind fun s => if vals.contains s then some s else none

/-- The schema `z.literal(true)`. -/
def zLitTrue (j : Json) : Option Bool :=
  match j with
  | .jbool true => some true
  | _ => none

/-- An `.optional()` field: an absent key parses to `none`. -/
def optF {α : Type} (p : Json → Option α) : Option Json → Option (Option α)
  | none => some none
  | some j => (p j).map some

/-- A `.default(d)` field: an absent key parses to the default. -/
def defF {α : Type} (p : Json → Option α) (d : α) : Option Json → Option α
  | none => some d
  | some j => p j

/-- A required field: an absent key is a parse failure. -/
def reqF {α : Type} (p : Json → Option α) : Option Json → Option α
  | none => none
  | some j => p j

/-- Parsed form of `SearchSymbolsParams` (src/search-symbols.schema.ts). -/
structure SearchSymbolsParams where
  query : String
  filterByKind : Option (List String)
  filterByVisibility : Option (List String)
  isExported : Option Bool
  filterByFile : Option String
  limit : Int
  offset : Int
  includeUsageCount : Option Bool
  includeDocumentation : Option Bool

/-- Embedding of `searchSymbolsParamsSchema`. -/
def searchSymbolsParamsSchema (j : Json) : Option SearchSymbolsParams :=
  (asObj j).bind fun fs =>
  (reqF (zStrMinMax 1 200) (getKey fs "query")).bind fun query =>
  (optF zStrArray (getKey fs "filterByKind")).bind fun filterByKind =>
  (optF zStrArray (getKey fs "filterByVisibility")).bind fun filterByVisibility =>
  (optF asBool (getKey fs "isExported")).bind fun isExported =>
  (optF asStr (getKey fs "filterByFile")).bind fun filterByFile =>
  (defF (zPosIntMax 100) 50 (getKey fs "limit")).bind fun limit =>
  (defF zNonnegInt 0 (getKey fs "offset")).bind fun offset =>
  (optF asBool (getKey fs "includeUsageCount")).bind fun includeUsageCount =>
  (optF asBool (getKey fs "includeDocumentation")).bind fun includeDocumentation =>
  some ⟨query, filterByKind, filterByVisibility, isExported, filterByFile,
    limit, offset, includeUsageCount, includeDocumentation⟩

/-- Parsed form of `GetDependenciesParams` (get-dependencies.schema.ts). -/
structure GetDependenciesParams where
  filePath : String
  depth : Option Int
  includePackages : Option Bool
  includeSymbols : Option Bool
  limit : Int
  offset : Int

/-- Embedding of `getDependenciesParamsSchema`. -/
def getDependenciesParamsSchema (j : Json) : Option GetDependenciesParams :=
  (asObj j).bind fun fs =>
  (reqF (zStrMin 1) (getKey fs "filePath")).bind fun filePath =>
  (optF (zNonnegIntMax 10) (getKey fs "depth")).bind fun depth =>
  (optF asBool (getKey fs "includePackages")).bind fun includePackages =>
  (optF asBool (getKey fs "includeSymbols")).bind fun includeSymbols =>
  (defF (zPosIntMax 100) 20 (getKey fs "limit")).bind fun limit =>
  (defF zNonnegInt 0 (getKey fs "offset")).bind fun offset =>
  some ⟨filePath, depth, includePackages, includeSymbols, limit, offset⟩

/-- Parsed form of `GetDependentsParams` (get-dependents.schema.ts). -/
structure GetDependentsParams where
  filePath : String
  depth : Option Int
  includeSymbols : Option Bool
  includeImpactMetrics : Option Bool
  limit : Int
  offset : Int

/-- Embedding of `getDependentsParamsSchema`. -/
def getDependentsParamsSchema (j : Json) : Option GetDependentsParams :=
  (asObj j).bind fun fs =>
  (reqF (zStrMin 1) (getKey fs "filePath")).bind fun filePath =>
  (optF (zNonnegIntMax 10) (getKey fs "depth")).bind fun depth =>
  (optF asBool (getKey fs "includeSymbols")).bind fun includeSymbols =>
  (optF asBool (getKey fs "includeImpactMetrics")).bind fun includeImpactMetrics =>
  (defF (zPosIntMax 100) 20 (getKey fs "limit")).bind fun limit =>
  (defF zNonnegInt 0 (getKey fs "offset")).bind fun offset =>
  some ⟨filePath, depth, includeSymbols, includeImpactMetrics, limit, offset⟩

/-- Parsed form of `GetCallGraphParams` (get-call-graph.schema.ts). -/
structure GetCallGraphParams where
  symbolId : Option String
  symbolName : Option String
  filePath : Option String
  direction : String
  depth : Int
  excludeExternal : Option Bool
  includeGraph : Option Bool
  limit : Int
  offset : Int

/-- Embedding of `getCallGraphParamsSchema`. -/
def getCallGraphParamsSchema (j : Json) : Option GetCallGraphParams :=
  (asObj j).bind fun fs =>
  (optF asStr (getKey fs "symbolId")).bind fun symbolId =>
  (optF asStr (getKey fs "symbolName")).bind fun symbolName =>
  (optF asStr (getKey fs "filePath")).bind fun filePath =>
  (defF (zEnum ["callers", "callees", "both"]) "both"
      (getKey fs "direction")).bind fun direction =>
  (defF (zPosIntMax 10) 3 (getKey fs "depth")).bind fun depth =>
  (optF asBool (getKey fs "excludeExternal")).bind fun excludeExternal =>
  (optF asBool (getKey fs "includeGraph")).bind fun includeGraph =>
  (defF (zPosIntMax 100) 25 (getKey fs "limit")).bind fun limit =>
  (defF zNonnegInt 0 (getKey fs "offset")).bind fun offset =>
  some ⟨symbolId, symbolName, filePath, direction, depth, excludeExternal,
    includeGraph, limit, offset⟩

/-- Parsed form of `FindCircularDependenciesParams`
(find-circular-dependencies.schema.ts). -/
structure FindCircularDependenciesParams where
  filePath : Option String
  minCycleLength : Option Int
  maxCycleLength : Option Int
  limit : Int
  offset : Int
  includeImpactScore : Option Bool
  includeConfidence : Option Bool

/-- Embedding of `findCircularDependenciesParamsSchema`. -/
def findCircularDependenciesParamsSchema (j : Json) :
    Option FindCircularDependenciesParams :=
  (asObj j).bind fun fs =>
  (optF (zStrMin 1) (getKey fs "filePath")).bind fun filePath =>
  (optF (zIntMinMax 2 10) (getKey fs "minCycleLength")).bind fun minCycleLength =>
  (optF (zIntMinMax 2 10) (getKey fs "maxCycleLength")).bind fun maxCycleLength =>
  (defF (zPosIntMax 100) 50 (getKey fs "limit")).bind fun limit =>
  (defF zNonnegInt 0 (getKey fs "offset")).bind fun offset =>
  (optF asBool (getKey fs "includeImpactScore")).bind fun includeImpactScore =>
  (optF asBool (getKey fs "includeConfidence")).bind fun includeConfidence =>
  some ⟨filePath, minCycleLength, maxCycleLength, limit, offset,
    includeImpactScore, includeConfidence⟩

/-- Parsed form of `TraceSymbolUsageParams` (trace-symbol-usage.schema.ts). -/
structure TraceSymbolUsageParams where
  symbolId : Option String
  symbolName : Option String
  filePath : Option String
  filterByUsageType : Option (List String)
  filterByRelationshipType : Option (List String)
  includeTransitive : Option Bool
  includeContext : Option Bool
  excludeTests : Option Bool
  excludeGenerated : Option Bool
  includeImportanceWeight : Option Bool
  limit : Int
  offset : Int

/-- Embedding of `traceSymbolUsageParamsSchema`. -/
def traceSymbolUsageParamsSchema (j : Json) : Option TraceSymbolUsageParams :=
  (asObj j).bind fun fs =>
  (optF asStr (getKey fs "symbolId")).bind fun symbolId =>
  (optF asStr (getKey fs "symbolName")).bind fun symbolName =>
  (optF asStr (getKey fs "filePath")).bind fun filePath =>
  (optF zStrArray (getKey fs "filterByUsageType")).bind fun filterByUsageType =>
  (optF zStrArray (getKey fs "filterByRelationshipType")).bind
      fun filterByRelationshipType =>
  (optF asBool (getKey fs "includeTransitive")).bind fun includeTransitive =>
  (optF asBool (getKey fs "includeContext")).bind fun includeContext =>
  (optF asBool (getKey fs "excludeTests")).bind fun excludeTests =>
  (optF asBool (getKey fs "excludeGenerated")).bind fun excludeGenerated =>
  (optF asBool (getKey fs "includeImportanceWeight")).bind
      fun includeImportanceWeight =>
  (defF (zPosIntMax 100) 50 (getKey fs "limit")).bind fun limit =>
  (defF zNonnegInt 0 (getKey fs "offset")).bind fun offset =>
  some ⟨symbolId, symbolName, filePath, filterByUsageType,
    filterByRelationshipType, includeTransitive, includeContext, excludeTests,
    excludeGenerated, includeImportanceWeight, limit, offset⟩

/-- Parsed form of `FindOrphanedCodeParams` (find-orphaned-code.schema.ts). -/
structure FindOrphanedCodeParams where
  filePattern : Option String
  filterByKind : Option (List String)
  exportedOnly : Option Bool
  excludeTests : Bool
  limit : Int
  offset : Int
  includeConfidence : Option Bool

/-- Embedding of `findOrphanedCodeParamsSchema`. -/
def findOrphanedCodeParamsSchema (j : Json) : Option FindOrphanedCodeParams :=
  (asObj j).bind fun fs =>
  (optF asStr (getKey fs "filePattern")).bind fun filePattern =>
  (optF zStrArray (getKey fs "filterByKind")).bind fun filterByKind =>
  (optF asBool (getKey fs "exportedOnly")).bind fun exportedOnly =>
  (defF asBool true (getKey fs "excludeTests")).bind fun excludeTests =>
  (defF (zPosIntMax 100) 50 (getKey fs "limit")).bind fun limit =>
  (defF zNonnegInt 0 (getKey fs "offset")).bind fun offset =>
  (optF asBool (getKey fs "includeConfidence")).bind fun includeConfidence =>
  some ⟨filePattern, filterByKind, exportedOnly, excludeTests, limit, offset,
    includeConfidence⟩

/-- Parsed form of `ImpactAnalysisParams` (impact-analysis.schema.ts). -/
structure ImpactAnalysisParams where
  symbolId : Option String
  qualifiedName : Option String
  symbolName : Option String
  filePath : Option String
  includeDirectDependents : Bool
  includeTransitiveDependents : Bool
  depth : Int
  excludeTests : Bool
  excludeGenerated : Bool
  analyzeBreakingChanges : Bool

/-- Embedding of `impactAnalysisParamsSchema`. -/
def impactAnalysisParamsSchema (j : Json) : Option ImpactAnalysisParams :=
  (asObj j).bind fun fs =>
  (optF asStr (getKey fs "symbolId")).bind fun symbolId =>
  (optF asStr (getKey fs "qualifiedName")).bind fun qualifiedName =>
  (optF asStr (getKey fs "symbolName")).bind fun symbolName =>
  (optF asStr (getKey fs "filePath")).bind fun filePath =>
  (defF asBool true (getKey fs "includeDirectDependents")).bind
      fun includeDirectDependents =>
  (defF asBool true (getKey fs "includeTransitiveDependents")).bind
      fun includeTransitiveDependents =>
  (defF (zIntMinMax 1 5) 3 (getKey fs "depth")).bind fun depth =>
  (defF asBool true (getKey fs "excludeTests")).bind fun excludeTests =>
  (defF asBool true (getKey fs "excludeGenerated")).bind fun excludeGenerated =>
  (defF asBool true (getKey fs "analyzeBreakingChanges")).bind
      fun analyzeBreakingChanges =>
  some ⟨symbolId, qualifiedName, symbolName, filePath, includeDirectDependents,
    includeTransitiveDependents, depth, excludeTests, excludeGenerated,
    analyzeBreakingChanges⟩

/-- Parsed form of `PaginationMetadata` (common.schema.ts). -/
structure PaginationMetadata where
  total : Int
  returned : Int
  hasMore : Bool
  nextOffset : Option Int
  currentOffset : Option Int

/-- Embedding of `paginationMetadataSchema`. -/
def paginationMetadataSchema (j : Json) : Option PaginationMetadata :=
  (asObj j).bind fun fs =>
  (reqF zNonnegInt (getKey fs "total")).bind fun total =>
  (reqF zNonnegInt (getKey fs "returned")).bind fun returned =>
  (reqF asBool (getKey fs "hasMore")).bind fun hasMore =>
  (optF zNonnegInt (getKey fs "nextOffset")).bind fun nextOffset =>
  (optF zNonnegInt (getKey fs "currentOffset")).bind fun currentOffset =>
  some ⟨total, returned, hasMore, nextOffset, currentOffset⟩

/-- The eighteen symbol kind categories enumerated in common.schema.ts. -/
def symbolKindCategories : List String :=
  ["function", "class", "interface", "type", "variable", "constant", "enum",
   "module", "namespace", "method", "property", "parameter", "constructor",
   "decorator", "trait", "struct", "macro", "unknown"]

/-- Embedding of `symbolKindCategorySchema`. -/
def symbolKindCategorySchema (j : Json) : Option String :=
  zEnum symbolKindCategories j

/-- The five import types enumerated in import-resolution.schema.ts. -/
def importTypes : List String :=
  ["relative", "workspace", "alias", "external", "builtin"]

/-- Embedding of `importTypeSchema`. -/
def importTypeSchema (j : Json) : Option String :=
  zEnum importTypes j

/-- Parsed form of `ImportResolution` (import-resolution.schema.ts). -/
structure ImportResolution where
  source : String
  resolvedPath : Option String
  isExternal : Bool
  importType : String

/-- Embedding of `importResolutionSchema`. -/
def importResolutionSchema (j : Json) : Option ImportResolution :=
  (asObj j).bind fun fs =>
  (reqF asStr (getKey fs "source")).bind fun source =>
  (optF asStr (getKey fs "resolvedPath")).bind fun resolvedPath =>
  (reqF asBool (getKey fs "isExternal")).bind fun isExternal =>
  (reqF importTypeSchema (getKey fs "importType")).bind fun importType =>
  some ⟨source, resolvedPath, isExternal, importType⟩

/-- Parsed form of `FileFailure` (indexing-response.schema.ts). -/
structure FileFailure where
  file : String
  error : String

/-- Embedding of `fileFailureSchema`. -/
def fileFailureSchema (j : Json) : Option FileFailure :=
  (asObj j).bind fun fs =>
  (reqF asStr (getKey fs "file")).bind fun file =>
  (reqF asStr (getKey fs "error")).bind fun error =>
  some ⟨file, error⟩

/-- Parsed form of `RelationshipFailure` (indexing-response.schema.ts). -/
structure RelationshipFailure where
  file : String
  failedCount : Int
  createdCount : Int
  isTransient : Bool

/-- Embedding of `relationshipFailureSchema`. -/
def relationshipFailureSchema (j : Json) : Option RelationshipFailure :=
  (asObj j).bind fun fs =>
  (reqF asStr (getKey fs "file")).bind fun file =>
  (reqF zNonnegInt (getKey fs "failedCount")).bind fun failedCount =>
  (reqF zNonnegInt (getKey fs "createdCount")).bind fun createdCount =>
  (reqF asBool (getKey fs "isTransient")).bind fun isTransient =>
  some ⟨file, failedCount, createdCount, isTransient⟩

/-- Parsed form of `RelationshipSummary` (indexing-response.schema.ts). -/
structure RelationshipSummary where
  totalCreated : Int
  totalFailed : Int
  filesWithFailures : List RelationshipFailure

/-- Embedding of `relationshipSummarySchema`. -/
def relationshipSummarySchema (j : Json) : Option RelationshipSummary :=
  (asObj j).bind fun fs =>
  (reqF zNonnegInt (getKey fs "totalCreated")).bind fun totalCreated =>
  (reqF zNonnegInt (getKey fs "totalFailed")).bind fun totalFailed =>
  (reqF (zArrayOf relationshipFailureSchema)
      (getKey fs "filesWithFailures")).bind fun filesWithFailures =>
  some ⟨totalCreated, totalFailed, filesWithFailures⟩

/-- Parsed form of `IndexingResponse` (indexing-response.schema.ts). -/
structure IndexingResponse where
  processed : Int
  failed : Int
  projectId : String
  branchName : String
  failedFiles : Option (List FileFailure)
  relationships : RelationshipSummary

/-- Embedding of `indexingResponseSchema`. -/
def indexingResponseSchema (j : Json) : Option IndexingResponse :=
  (asObj j).bind fun fs =>
  (reqF zNonnegInt (getKey fs "processed")).bind fun processed =>
  (reqF zNonnegInt (getKey fs "failed")).bind fun failed =>
  (reqF asStr (getKey fs "projectId")).bind fun projectId =>
  (reqF asStr (getKey fs "branchName")).bind fun branchName =>
  (optF (zArrayOf fileFailureSchema) (getKey fs "failedFiles")).bind
      fun failedFiles =>
  (reqF relationshipSummarySchema (getKey fs "relationships")).bind
      fun relationships =>
  some ⟨processed, failed, projectId, branchName, failedFiles, relationships⟩

/-- Embedding of `pingParamsSchema`, which is `z.object({}).strict()`: with no
recognized keys, strict mode rejects every present key. -/
def pingParamsSchema (j : Json) : Option Unit :=
  match j with
  | .jobj [] => some ()
  | _ => none

/-- Parsed form of `PingResult` (ping.schema.ts). -/
structure PingResult where
  pong : Bool

/-- Embedding of `pingResultSchema`: `pong` must be the literal `true`. -/
def pingResultSchema (j : Json) : Option PingResult :=
  (asObj j).bind fun fs =>
  (reqF zLitTrue (getKey fs "pong")).bind fun pong =>
  some ⟨pong⟩

/-- Error payload of the API envelope (api-response.schema.ts). -/
structure ApiError where
  code : String
  message : String
  details : Option Json

/-- The `ApiResponse<T>` discriminated union of api-response.schema.ts. -/
inductive ApiResponse (T : Type) where
  | success (data : T)
  | failure (error : ApiError)

/-- The value of the `success` discriminant field of an envelope. -/
def ApiResponse.successFlag {T : Type} : ApiResponse T → Bool
  | .success _ => true
  | .failure _ => false

/-- Embedding of the `isSuccessResponse` type guard:
`response.success === true`. -/
def isSuccessResponse {T : Type} (r : ApiResponse T) : Bool :=
  r.successFlag == true

/-- Embedding of the `isErrorResponse` type guard:
`response.success === false`. -/
def isErrorResponse {T : Type} (r : ApiResponse T) : Bool :=
  r.successFlag == false

/-- Spec-side predicate: the JSON value is a positive integer at most `m`
(the words of the spec for a `limit` parameter). -/
def specIsPosIntAtMost (m : Int) (v : Json) : Bool :=
  match v with
  | .jnum q => (q.den == 1) && decide (0 < q.num) && decide (q.num ≤ m)
  | _ => false

/-- Spec-side predicate: the JSON value is a nonnegative integer (the words of
the spec for an `offset` parameter). -/
def specIsNonnegInt (v : Json) : Bool :=
  match v with
  | .jnum q => (q.den == 1) && decide (0 ≤ q.num)
  | _ => false

/-- Spec-side predicate: the JSON value is a nonnegative integer at most `m`
(the words of the spec for a traversal `depth` parameter). -/
def specIsNonnegIntAtMost (m : Int) (v : Json) : Bool :=
  match v with
  | .jnum q => (q.den == 1) && decide (0 ≤ q.num) && decide (q.num ≤ m)
  | _ => false

/-- Spec-side predicate: the JSON value is an integer between `lo` and `hi`
inclusive. -/
def specIsIntBetween (lo hi : Int) (v : Json) : Bool :=
  match v with
  | .jnum q => (q.den == 1) && decide (lo ≤ q.num) && decide (q.num ≤ hi)
  | _ => false

/-- The seventeen symbol kinds enumerated by the specification text, in its
order; the spec omits the `decorator` kind that the code accepts. -/
def specSeventeenKinds : List String :=
  ["function", "class", "interface", "type", "variable", "constant", "enum",
   "module", "namespace", "method", "property", "parameter", "constructor",
   "trait", "struct", "macro", "unknown"]

/-- Fields of a paginated-result value that the schema accepts although it
violates the pagination invariant: `hasMore` is false while
`currentOffset + returned` is strictly below `total`. -/
def cexPaginationFields : List (String × Json) :=
  [("total", .jnum 10), ("returned", .jnum 5), ("hasMore", .jbool false),
    ("currentOffset", .jnum 0)]

/-- The invariant-violating paginated-result value as a JSON object. -/
def cexPaginationJson : Json := .jobj cexPaginationFields

/-- The parsed form of `cexPaginationJson`. -/
def cexPaginationValue : PaginationMetadata := ⟨10, 5, false, none, some 0⟩

/-- Fields of a well-formed indexing response that omits the optional
`failedFiles` list. -/
def exIndexingFields : List (String × Json) :=
  [("processed", .jnum 2), ("failed", .jnum 0), ("projectId", .jstr "p"),
    ("branchName", .jstr "main"),
    ("relationships", .jobj [("totalCreated", .jnum 3),
      ("totalFailed", .jnum 1),
      ("filesWithFailures", .jarr [.jobj [("file", .jstr "a.ts"),
        ("failedCount", .jnum 1), ("createdCount", .jnum 2),
        ("isTransient", .jbool false)]])])]

/-- The indexing-response example as a JSON object. -/
def exIndexingJson : Json := .jobj exIndexingFields

/-- The parsed form of `exIndexingJson`. -/
def exIndexingValue : IndexingResponse :=
  ⟨2, 0, "p", "main", none, ⟨3, 1, [⟨"a.ts", 1, 2, false⟩]⟩⟩

/-- A bind over `Option` is `none` when every continuation value is `none`. -/
theorem bind_none_of {α β : Type} (x : Option α) (f : α → Option β)
    (h : ∀ a, f a = none) : x.bind f = none := by
  cases x <;> simp [h]

/-- A `.default` field applied to a present key runs the field parser. -/
theorem defF_some_eq {α : Type} (p : Json → Option α) (d : α) (j : Json) :
    defF p d (some j) = p j := rfl

/-- A `.default` field applied to an absent key yields the default. -/
theorem defF_none_eq {α : Type} (p : Json → Option α) (d : α) :
    defF p d none = some d := rfl

/-- An `.optional` field that parsed to a present value came from a present
key on which the field parser succeeded. -/
theorem optF_eq_some_some {α : Type} (p : Json → Option α) (o : Option Json)
    (a : α) (h : optF p o = some (some a)) : ∃ j, o = some j ∧ p j = some a := by
  cases o with
  | none => simp [optF] at h
  | some j =>
    refine ⟨j, rfl, ?_⟩
    simpa [optF] using h

/-- An `.optional` field over an absent key parses to `none`. -/
theorem optF_none_of {α : Type} (p : Json → Option α) (o : Option Json)
    (oa : Option α) (h : optF p o = some oa) (ho : o = none) : oa = none := by
  subst ho
  simpa [optF] using h.symm

/-- An `.optional` field applied to a present key runs the field parser. -/
theorem optF_some_eq {α : Type} (p : Json → Option α) (j : Json) :
    optF p (some j) = (p j).map some := rfl

/-- A required field applied to an absent key fails. -/
theorem reqF_none_eq {α : Type} (p : Json → Option α) :
    reqF p none = none := rfl

/-- A required field applied to a present key runs the field parser. -/
theorem reqF_some_eq {α : Type} (p : Json → Option α) (j : Json) :
    reqF p (some j) = p j := rfl

/-- A required field that parsed came from a present key on which the field
parser succeeded. -/
theorem reqF_eq_some {α : Type} (p : Json → Option α) (o : Option Json)
    (a : α) (h : reqF p o = some a) : ∃ j, o = some j ∧ p j = some a := by
  cases o with
  | none => simp [reqF] at h
  | some j => exact ⟨j, rfl, h⟩

/-- The `z.number().int().positive().max(m)` chain fails on any value that is
not a positive integer at most `m`. -/
theorem zPosIntMax_none (m : Int) (v : Json)
    (h : specIsPosIntAtMost m v = false) : zPosIntMax m v = none := by
  cases v <;> simp [zPosIntMax, asNum]
  case jnum q =>
    by_cases hd : q.den = 1
    · simp [specIsPosIntAtMost, hd] at h
      simp [intCheck, hd]
      exact h
    · simp [intCheck, hd]

/-- The `z.number().int().nonnegative()` chain fails on any value that is not
a nonnegative integer. -/
theorem zNonnegInt_none (v : Json)
    (h : specIsNonnegInt v = false) : zNonnegInt v = none := by
  cases v <;> simp [zNonnegInt, asNum]
  case jnum q =>
    by_cases hd : q.den = 1
    · simp [specIsNonnegInt, hd] at h
      simp [intCheck, hd]
      exact h
    · simp [intCheck, hd]

/-- The `z.number().int().nonnegative().max(m)` chain fails on any value that
is not a nonnegative integer at most `m`. -/
theorem zNonnegIntMax_none (m : Int) (v : Json)
    (h : specIsNonnegIntAtMost m v = false) : zNonnegIntMax m v = none := by
  cases v <;> simp [zNonnegIntMax, asNum]
  case jnum q =>
    by_cases hd : q.den = 1
    · simp [specIsNonnegIntAtMost, hd] at h
      simp [intCheck, hd]
      exact h
    · simp [intCheck, hd]

/-- The `z.number().int().min(lo).max(hi)` chain fails on any value that is
not an integer between `lo` and `hi`. -/
theorem zIntMinMax_none (lo hi : Int) (v : Json)
    (h : specIsIntBetween lo hi v = false) : zIntMinMax lo hi v = none := by
  cases v <;> simp [zIntMinMax, asNum]
  case jnum q =>
    by_cases hd : q.den = 1
    · simp [specIsIntBetween, hd] at h
      simp [intCheck, hd]
      exact h
    · simp [intCheck, hd]

/-- Whatever the `z.number().int().nonnegative()` chain accepts is a
nonnegative integer. -/
theorem zNonnegInt_sound (j : Json) (n : Int)
    (h : zNonnegInt j = some n) : 0 ≤ n := by
  cases j <;> simp [zNonnegInt, asNum] at h
  case jnum q =>
    by_cases hd : q.den = 1 <;> simp [intCheck, hd] at h
    obtain ⟨h1, h2⟩ := h
    subst h2
    exact Rat.num_nonneg.mpr h1

/-- Whatever the `z.number().int().nonnegative().max(m)` chain accepts is a
nonnegative integer at most `m`. -/
theorem zNonnegIntMax_sound (m : Int) (j : Json) (n : Int)
    (h : zNonnegIntMax m j = some n) : 0 ≤ n ∧ n ≤ m := by
  cases j <;> simp [zNonnegIntMax, asNum] at h
  case jnum q =>
    by_cases hd : q.den = 1 <;> simp [intCheck, hd] at h
    obtain ⟨⟨h1, h2⟩, h3⟩ := h
    subst h3
    exact ⟨Rat.num_nonneg.mpr h1, h2⟩

/-- Whatever the `z.number().int().min(lo).max(hi)` chain accepts is an
integer between `lo` and `hi`. -/
theorem zIntMinMax_sound (lo hi : Int) (j : Json) (n : Int)
    (h : zIntMinMax lo hi j = some n) : lo ≤ n ∧ n ≤ hi := by
  cases j <;> simp [zIntMinMax, asNum] at h
  case jnum q =>
    by_cases hd : q.den = 1 <;> simp [intCheck, hd] at h
    obtain ⟨⟨h1, h2⟩, h3⟩ := h
    subst h3
    exact ⟨h1, h2⟩

/-- Whatever `z.enum(vals)` accepts is the string it returns, drawn from the
vocabulary. -/
theorem zEnum_sound (vals : List String) (j : Json) (t : String)
    (h : zEnum vals j = some t) : j = .jstr t ∧ t ∈ vals := by
  cases j <;> simp [zEnum, asStr] at h
  case jstr s =>
    obtain ⟨hmem, hst⟩ := h
    subst hst
    exact ⟨rfl, hmem⟩

/-- On a string input, `z.enum(vals)` accepts exactly the vocabulary. -/
theorem zEnum_jstr (vals : List String) (s : String) :
    zEnum vals (.jstr s) = if s ∈ vals then some s else none := by
  simp only [zEnum, asStr, Option.some_bind]
  by_cases h : s ∈ vals
  · rw [if_pos (List.elem_iff.mpr h), if_pos h]
  · rw [if_neg (fun hc => h (List.elem_iff.mp hc)), if_neg h]

/-- The literal-`true` schema accepts only the JSON boolean `true`. -/
theorem zLitTrue_sound (j : Json) (b : Bool) (h : zLitTrue j = some b) :
    j = .jbool true ∧ b = true := by
  cases j with
  | jbool c => cases c <;> simp_all [zLitTrue]
  | jnum q => simp [zLitTrue] at h
  | jstr s => simp [zLitTrue] at h
  | jnull => simp [zLitTrue] at h
  | jarr xs => simp [zLitTrue] at h
  | jobj fs => simp [zLitTrue] at h

/-- searchSymbols rejects a present `limit` that fails its chain. -/
theorem ssLimitBad (fs : List (String × Json)) (v : Json)
    (h1 : getKey fs "limit" = some v) (h2 : specIsPosIntAtMost 100 v = false) :
    searchSymbolsParamsSchema (.jobj fs) = none := by
  rw [searchSymbolsParamsSchema, show asObj (.jobj fs) = some fs from rfl,
    Option.some_bind]
  apply bind_none_of; intro a1
  apply bind_none_of; intro a2
  apply bind_none_of; intro a3
  apply bind_none_of; intro a4
  apply bind_none_of; intro a5
  rw [h1, defF_some_eq, zPosIntMax_none 100 v h2, Option.none_bind]

/-- searchSymbols rejects a present `offset` that fails its chain. -/
theorem ssOffsetBad (fs : List (String × Json)) (v : Json)
    (h1 : getKey fs "offset" = some v) (h2 : specIsNonnegInt v = false) :
    searchSymbolsParamsSchema (.jobj fs) = none := by
  rw [searchSymbolsParamsSchema, show asObj (.jobj fs) = some fs from rfl,
    Option.some_bind]
  apply bind_none_of; intro a1
  apply bind_none_of; intro a2
  apply bind_none_of; intro a3
  apply bind_none_of; intro a4
  apply bind_none_of; intro a5
  apply bind_none_of; intro a6
  rw [h1, defF_some_eq, zNonnegInt_none v h2, Option.none_bind]

/-- searchSymbols defaults: an absent `limit` parses to 50 and an absent
`offset` parses to 0. -/
theorem ssDefaults (fs : List (String × Json)) (p : SearchSymbolsParams)
    (hp : searchSymbolsParamsSchema (.jobj fs) = some p) :
    (getKey fs "limit" = none → p.limit = 50) ∧
    (getKey fs "offset" = none → p.offset = 0) := by
  rw [searchSymbolsParamsSchema, show asObj (.jobj fs) = some fs from rfl,
    Option.some_bind] at hp
  simp only [Option.bind_eq_some, Option.some.injEq] at hp
  obtain ⟨a1, h1, a2, h2, a3, h3, a4, h4, a5, h5, l, hl, o, ho, a8, h8, a9, h9,
    hfin⟩ := hp
  subst hfin
  constructor
  · intro hn
    rw [hn, defF_none_eq, Option.some.injEq] at hl
    simpa using hl.symm
  · intro hn
    rw [hn, defF_none_eq, Option.some.injEq] at ho
    simpa using ho.symm

/-- getDependencies rejects a present `limit` that fails its chain. -/
theorem gdLimitBad (fs : List (String × Json)) (v : Json)
    (h1 : getKey fs "limit" = some v) (h2 : specIsPosIntAtMost 100 v = false) :
    getDependenciesParamsSchema (.jobj fs) = none := by
  rw [getDependenciesParamsSchema, show asObj (.jobj fs) = some fs from rfl,
    Option.some_bind]
  apply bind_none_of; intro a1
  apply bind_none_of; intro a2
  apply bind_none_of; intro a3
  apply bind_none_of; intro a4
  rw [h1, defF_some_eq, zPosIntMax_none 100 v h2, Option.none_bind]

/-- getDependencies rejects a present `offset` that fails its chain. -/
theorem gdOffsetBad (fs : List (String × Json)) (v : Json)
    (h1 : getKey fs "offset" = some v) (h2 : specIsNonnegInt v = false) :
    getDependenciesParamsSchema (.jobj fs) = none := by
  rw [getDependenciesParamsSchema, show asObj (.jobj fs) = some fs from rfl,
    Option.some_bind]
  apply bind_none_of; intro a1
  apply bind_none_of; intro a2
  apply bind_none_of; intro a3
  apply bind_none_of; intro a4
  apply bind_none_of; intro a5
  rw [h1, defF_some_eq, zNonnegInt_none v h2, Option.none_bind]

/-- getDependencies defaults: absent `limit` parses to 20, absent `offset`
to 0. -/
theorem gdDefaults (fs : List (String × Json)) (p : GetDependenciesParams)
    (hp : getDependenciesParamsSchema (.jobj fs) = some p) :
    (getKey fs "limit" = none → p.limit = 20) ∧
    (getKey fs "offset" = none → p.offset = 0) := by
  rw [getDependenciesParamsSchema, show asObj (.jobj fs) = some fs from rfl,
    Option.some_bind] at hp
  simp only [Option.bind_eq_some, Option.some.injEq] at hp
  obtain ⟨a1, h1, a2, h2, a3, h3, a4, h4, l, hl, o, ho, hfin⟩ := hp
  subst hfin
  constructor
  · intro hn
    rw [hn, defF_none_eq, Option.some.injEq] at hl
    simpa using hl.symm
  · intro hn
    rw [hn, defF_none_eq, Option.some.injEq] at ho
    simpa using ho.symm

/-- getDependents rejects a present `limit` that fails its chain. -/
theorem gdepLimitBad (fs : List (String × Json)) (v : Json)
    (h1 : getKey fs "limit" = some v) (h2 : specIsPosIntAtMost 100 v = false) :
    getDependentsParamsSchema (.jobj fs) = none := by
  rw [getDependentsParamsSchema, show asObj (.jobj fs) = some fs from rfl,
    Option.some_bind]
  apply bind_none_of; intro a1
  apply bind_none_of; intro a2
  apply bind_none_of; intro a3
  apply bind_none_of; intro a4
  rw [h1, defF_some_eq, zPosIntMax_none 100 v h2, Option.none_bind]

/-- getDependents rejects a present `offset` that fails its chain. -/
theorem gdepOffsetBad (fs : List (String × Json)) (v : Json)
    (h1 : getKey fs "offset" = some v) (h2 : specIsNonnegInt v = false) :
    getDependentsParamsSchema (.jobj fs) = none := by
  rw [getDependentsParamsSchema, show asObj (.jobj fs) = some fs from rfl,
    Option.some_bind]
  apply bind_none_of; intro a1
  apply bind_none_of; intro a2
  apply bind_none_of; intro a3
  apply bind_none_of; intro a4
  apply bind_none_of; intro a5
  rw [h1, defF_some_eq, zNonnegInt_none v h2, Option.none_bind]

/-- getDependents defaults: absent `limit` parses to 20, absent `offset`
to 0. -/
theorem gdepDefaults (fs : List (String × Json)) (p : GetDependentsParams)
    (hp : getDependentsParamsSchema (.jobj fs) = some p) :
    (getKey fs "limit" = none → p.limit = 20) ∧
    (getKey fs "offset" = none → p.offset = 0) := by
  rw [getDependentsParamsSchema, show asObj (.jobj fs) = some fs from rfl,
    Option.some_bind] at hp
  simp only [Option.bind_eq_some, Option.some.injEq] at hp
  obtain ⟨a1, h1, a2, h2, a3, h3, a4, h4, l, hl, o, ho, hfin⟩ := hp
  subst hfin
  constructor
  · intro hn
    rw [hn, defF_none_eq, Option.some.injEq] at hl
    simpa using hl.symm
  · intro hn
    rw [hn, defF_none_eq, Option.some.injEq] at ho
    simpa using ho.symm

/-- getCallGraph rejects a present `limit` that fails its chain. -/
theorem cgLimitBad (fs : List (String × Json)) (v : Json)
    (h1 : getKey fs "limit" = some v) (h2 : specIsPosIntAtMost 100 v = false) :
    getCallGraphParamsSchema (.jobj fs) = none := by
  rw [getCallGraphParamsSchema, show asObj (.jobj fs) = some fs from rfl,
    Option.some_bind]
  apply bind_none_of; intro a1
  apply bind_none_of; intro a2
  apply bind_none_of; intro a3
  apply bind_none_of; intro a4
  apply bind_none_of; intro a5
  apply bind_none_of; intro a6
  apply bind_none_of; intro a7
  rw [h1, defF_some_eq, zPosIntMax_none 100 v h2, Option.none_bind]

/-- getCallGraph rejects a present `offset` that fails its chain. -/
theorem cgOffsetBad (fs : List (String × Json)) (v : Json)
    (h1 : getKey fs "offset" = some v) (h2 : specIsNonnegInt v = false) :
    getCallGraphParamsSchema (.jobj fs) = none := by
  rw [getCallGraphParamsSchema, show asObj (.jobj fs) = some fs from rfl,
    Option.some_bind]
  apply bind_none_of; intro a1
  apply bind_none_of; intro a2
  apply bind_none_of; intro a3
  apply bind_none_of; intro a4
  apply bind_none_of; intro a5
  apply bind_none_of; intro a6
  apply bind_none_of; intro a7
  apply bind_none_of; intro a8
  rw [h1, defF_some_eq, zNonnegInt_none v h2, Option.none_bind]

/-- getCallGraph defaults: absent `limit` parses to 25, absent `offset`
to 0. -/
theorem cgDefaults (fs : List (String × Json)) (p : GetCallGraphParams)
    (hp : getCallGraphParamsSchema (.jobj fs) = some p) :
    (getKey fs "limit" = none → p.limit = 25) ∧
    (getKey fs "offset" = none → p.offset = 0) := by
  rw [getCallGraphParamsSchema, show asObj (.jobj fs) = some fs from rfl,
    Option.some_bind] at hp
  simp only [Option.bind_eq_some, Option.some.injEq] at hp
  obtain ⟨a1, h1, a2, h2, a3, h3, a4, h4, a5, h5, a6, h6, a7, h7, l, hl, o, ho,
    hfin⟩ := hp
  subst hfin
  constructor
  · intro hn
    rw [hn, defF_none_eq, Option.some.injEq] at hl
    simpa using hl.symm
  · intro hn
    rw [hn, defF_none_eq, Option.some.injEq] at ho
    simpa using ho.symm

/-- findCircularDependencies rejects a present `limit` that fails its
chain. -/
theorem fcdLimitBad (fs : List (String × Json)) (v : Json)
    (h1 : getKey fs "limit" = some v) (h2 : specIsPosIntAtMost 100 v = false) :
    findCircularDependenciesParamsSchema (.jobj fs) = none := by
  rw [findCircularDependenciesParamsSchema,
    show asObj (.jobj fs) = some fs from rfl, Option.some_bind]
  apply bind_none_of; intro a1
  apply bind_none_of; intro a2
  apply bind_none_of; intro a3
  rw [h1, defF_some_eq, zPosIntMax_none 100 v h2, Option.none_bind]

/-- findCircularDependencies rejects a present `offset` that fails its
chain. -/
theorem fcdOffsetBad (fs : List (String × Json)) (v : Json)
    (h1 : getKey fs "offset" = some v) (h2 : specIsNonnegInt v = false) :
    findCircularDependenciesParamsSchema (.jobj fs) = none := by
  rw [findCircularDependenciesParamsSchema,
    show asObj (.jobj fs) = some fs from rfl, Option.some_bind]
  apply bind_none_of; intro a1
  apply bind_none_of; intro a2
  apply bind_none_of; intro a3
  apply bind_none_of; intro a4
  rw [h1, defF_some_eq, zNonnegInt_none v h2, Option.none_bind]

/-- findCircularDependencies defaults: absent `limit` parses to 50, absent
`offset` to 0. -/
theorem fcdDefaults (fs : List (String × Json))
    (p : FindCircularDependenciesParams)
    (hp : findCircularDependenciesParamsSchema (.jobj fs) = some p) :
    (getKey fs "limit" = none → p.limit = 50) ∧
    (getKey fs "offset" = none → p.offset = 0) := by
  rw [findCircularDependenciesParamsSchema,
    show asObj (.jobj fs) = some fs from rfl, Option.some_bind] at hp
  simp only [Option.bind_eq_some, Option.some.injEq] at hp
  obtain ⟨a1, h1, a2, h2, a3, h3, l, hl, o, ho, a6, h6, a7, h7, hfin⟩ := hp
  subst hfin
  constructor
  · intro hn
    rw [hn, defF_none_eq, Option.some.injEq] at hl
    simpa using hl.symm
  · intro hn
    rw [hn, defF_none_eq, Option.some.injEq] at ho
    simpa using ho.symm

/-- traceSymbolUsage rejects a present `limit` that fails its chain. -/
theorem tsuLimitBad (fs : List (String × Json)) (v : Json)
    (h1 : getKey fs "limit" = some v) (h2 : specIsPosIntAtMost 100 v = false) :
    traceSymbolUsageParamsSchema (.jobj fs) = none := by
  rw [traceSymbolUsageParamsSchema, show asObj (.jobj fs) = some fs from rfl,
    Option.some_bind]
  apply bind_none_of; intro a1
  apply bind_none_of; intro a2
  apply bind_none_of; intro a3
  apply bind_none_of; intro a4
  apply bind_none_of; intro a5
  apply bind_none_of; intro a6
  apply bind_none_of; intro a7
  apply bind_none_of; intro a8
  apply bind_none_of; intro a9
  apply bind_none_of; intro a10
  rw [h1, defF_some_eq, zPosIntMax_none 100 v h2, Option.none_bind]

/-- traceSymbolUsage rejects a present `offset` that fails its chain. -/
theorem tsuOffsetBad (fs : List (String × Json)) (v : Json)
    (h1 : getKey fs "offset" = some v) (h2 : specIsNonnegInt v = false) :
    traceSymbolUsageParamsSchema (.jobj fs) = none := by
  rw [traceSymbolUsageParamsSchema, show asObj (.jobj fs) = some fs from rfl,
    Option.some_bind]
  apply bind_none_of; intro a1
  apply bind_none_of; intro a2
  apply bind_none_of; intro a3
  apply bind_none_of; intro a4
  apply bind_none_of; intro a5
  apply bind_none_of; intro a6
  apply bind_none_of; intro a7
  apply bind_none_of; intro a8
  apply bind_none_of; intro a9
  apply bind_none_of; intro a10
  apply bind_none_of; intro a11
  rw [h1, defF_some_eq, zNonnegInt_none v h2, Option.none_bind]

/-- traceSymbolUsage defaults: absent `limit` parses to 50, absent `offset`
to 0. -/
theorem tsuDefaults (fs : List (String × Json)) (p : TraceSymbolUsageParams)
    (hp : traceSymbolUsageParamsSchema (.jobj fs) = some p) :
    (getKey fs "limit" = none → p.limit = 50) ∧
    (getKey fs "offset" = none → p.offset = 0) := by
  rw [traceSymbolUsageParamsSchema, show asObj (.jobj fs) = some fs from rfl,
    Option.some_bind] at hp
  simp only [Option.bind_eq_some, Option.some.injEq] at hp
  obtain ⟨a1, h1, a2, h2, a3, h3, a4, h4, a5, h5, a6, h6, a7, h7, a8, h8, a9,
    h9, a10, h10, l, hl, o, ho, hfin⟩ := hp
  subst hfin
  constructor
  · intro hn
    rw [hn, defF_none_eq, Option.some.injEq] at hl
    simpa using hl.symm
  · intro hn
    rw [hn, defF_none_eq, Option.some.injEq] at ho
    simpa using ho.symm

/-- findOrphanedCode rejects a present `limit` that fails its chain. -/
theorem focLimitBad (fs : List (String × Json)) (v : Json)
    (h1 : getKey fs "limit" = some v) (h2 : specIsPosIntAtMost 100 v = false) :
    findOrphanedCodeParamsSchema (.jobj fs) = none := by
  rw [findOrphanedCodeParamsSchema, show asObj (.jobj fs) = some fs from rfl,
    Option.some_bind]
  apply bind_none_of; intro a1
  apply bind_none_of; intro a2
  apply bind_none_of; intro a3
  apply bind_none_of; intro a4
  rw [h1, defF_some_eq, zPosIntMax_none 100 v h2, Option.none_bind]

/-- findOrphanedCode rejects a present `offset` that fails its chain. -/
theorem focOffsetBad (fs : List (String × Json)) (v : Json)
    (h1 : getKey fs "offset" = some v) (h2 : specIsNonnegInt v = false) :
    findOrphanedCodeParamsSchema (.jobj fs) = none := by
  rw [findOrphanedCodeParamsSchema, show asObj (.jobj fs) = some fs from rfl,
    Option.some_bind]
  apply bind_none_of; intro a1
  apply bind_none_of; intro a2
  apply bind_none_of; intro a3
  apply bind_none_of; intro a4
  apply bind_none_of; intro a5
  rw [h1, defF_some_eq, zNonnegInt_none v h2, Option.none_bind]

/-- findOrphanedCode defaults: absent `limit` parses to 50, absent `offset`
to 0. -/
theorem focDefaults (fs : List (String × Json)) (p : FindOrphanedCodeParams)
    (hp : findOrphanedCodeParamsSchema (.jobj fs) = some p) :
    (getKey fs "limit" = none → p.limit = 50) ∧
    (getKey fs "offset" = none → p.offset = 0) := by
  rw [findOrphanedCodeParamsSchema, show asObj (.jobj fs) = some fs from rfl,
    Option.some_bind] at hp
  simp only [Option.bind_eq_some, Option.some.injEq] at hp
  obtain ⟨a1, h1, a2, h2, a3, h3, a4, h4, l, hl, o, ho, a7, h7, hfin⟩ := hp
  subst hfin
  constructor
  · intro hn
    rw [hn, defF_none_eq, Option.some.injEq] at hl
    simpa using hl.symm
  · intro hn
    rw [hn, defF_none_eq, Option.some.injEq] at ho
    simpa using ho.symm

/-- C1: every pagination-carrying query parameter schema (searchSymbols,
getDependencies, getDependents, getCallGraph, findCircularDependencies,
traceSymbolUsage, findOrphanedCode) rejects a `limit` that is not a positive
integer at most 100 and an `offset` that is not a nonnegative integer; when
`limit` or `offset` is omitted, a successful parse defaults `limit` to a
value between 20 and 50 (50 for searchSymbols, 20 for getDependencies and
getDependents, 25 for getCallGraph, 50 for the rest) and `offset` to 0, as
the concrete minimal inputs show. -/
theorem c1_pagination_bounds :
    (∀ fs v, getKey fs "limit" = some v → specIsPosIntAtMost 100 v = false →
      searchSymbolsParamsSchema (.jobj fs) = none) ∧
    (∀ fs v, getKey fs "offset" = some v → specIsNonnegInt v = false →
      searchSymbolsParamsSchema (.jobj fs) = none) ∧
    (∀ fs p, searchSymbolsParamsSchema (.jobj fs) = some p →
      (getKey fs "limit" = none → p.limit = 50) ∧
      (getKey fs "offset" = none → p.offset = 0)) ∧
    (searchSymbolsParamsSchema (.jobj [("query", .jstr "a")]) =
      some ⟨"a", none, none, none, none, 50, 0, none, none⟩) ∧
    (∀ fs v, getKey fs "limit" = some v → specIsPosIntAtMost 100 v = false →
      getDependenciesParamsSchema (.jobj fs) = none) ∧
    (∀ fs v, getKey fs "offset" = some v → specIsNonnegInt v = false →
      getDependenciesParamsSchema (.jobj fs) = none) ∧
    (∀ fs p, getDependenciesParamsSchema (.jobj fs) = some p →
      (getKey fs "limit" = none → p.limit = 20) ∧
      (getKey fs "offset" = none → p.offset = 0)) ∧
    (getDependenciesParamsSchema (.jobj [("filePath", .jstr "a.ts")]) =
      some ⟨"a.ts", none, none, none, 20, 0⟩) ∧
    (∀ fs v, getKey fs "limit" = some v → specIsPosIntAtMost 100 v = false →
      getDependentsParamsSchema (.jobj fs) = none) ∧
    (∀ fs v, getKey fs "offset" = some v → specIsNonnegInt v = false →
      getDependentsParamsSchema (.jobj fs) = none) ∧
    (∀ fs p, getDependentsParamsSchema (.jobj fs) = some p →
      (getKey fs "limit" = none → p.limit = 20) ∧
      (getKey fs "offset" = none → p.offset = 0)) ∧
    (getDependentsParamsSchema (.jobj [("filePath", .jstr "a.ts")]) =
      some ⟨"a.ts", none, none, none, 20, 0⟩) ∧
    (∀ fs v, getKey fs "limit" = some v → specIsPosIntAtMost 100 v = false →
      getCallGraphParamsSchema (.jobj fs) = none) ∧
    (∀ fs v, getKey fs "offset" = some v → specIsNonnegInt v = false →
      getCallGraphParamsSchema (.jobj fs) = none) ∧
    (∀ fs p, getCallGraphParamsSchema (.jobj fs) = some p →
      (getKey fs "limit" = none → p.limit = 25) ∧
      (getKey fs "offset" = none → p.offset = 0)) ∧
    (getCallGraphParamsSchema (.jobj []) =
      some ⟨none, none, none, "both", 3, none, none, 25, 0⟩) ∧
    (∀ fs v, getKey fs "limit" = some v → specIsPosIntAtMost 100 v = false →
      findCircularDependenciesParamsSchema (.jobj fs) = none) ∧
    (∀ fs v, getKey fs "offset" = some v → specIsNonnegInt v = false →
      findCircularDependenciesParamsSchema (.jobj fs) = none) ∧
    (∀ fs p, findCircularDependenciesParamsSchema (.jobj fs) = some p →
      (getKey fs "limit" = none → p.limit = 50) ∧
      (getKey fs "offset" = none → p.offset = 0)) ∧
    (findCircularDependenciesParamsSchema (.jobj []) =
      some ⟨none, none, none, 50, 0, none, none⟩) ∧
    (∀ fs v, getKey fs "limit" = some v → specIsPosIntAtMost 100 v = false →
      traceSymbolUsageParamsSchema (.jobj fs) = none) ∧
    (∀ fs v, getKey fs "offset" = some v → specIsNonnegInt v = false →
      traceSymbolUsageParamsSchema (.jobj fs) = none) ∧
    (∀ fs p, traceSymbolUsageParamsSchema (.jobj fs) = some p →
      (getKey fs "limit" = none → p.limit = 50) ∧
      (getKey fs "offset" = none → p.offset = 0)) ∧
    (traceSymbolUsageParamsSchema (.jobj []) =
      some ⟨none, none, none, none, none, none, none, none, none, none,
        50, 0⟩) ∧
    (∀ fs v, getKey fs "limit" = some v → specIsPosIntAtMost 100 v = false →
      findOrphanedCodeParamsSchema (.jobj fs) = none) ∧
    (∀ fs v, getKey fs "offset" = some v → specIsNonnegInt v = false →
      findOrphanedCodeParamsSchema (.jobj fs) = none) ∧
    (∀ fs p, findOrphanedCodeParamsSchema (.jobj fs) = some p →
      (getKey fs "limit" = none → p.limit = 50) ∧
      (getKey fs "offset" = none → p.offset = 0)) ∧
    (findOrphanedCodeParamsSchema (.jobj []) =
      some ⟨none, none, none, true, 50, 0, none⟩) :=
  ⟨ssLimitBad, ssOffsetBad, ssDefaults, rfl,
   gdLimitBad, gdOffsetBad, gdDefaults, rfl,
   gdepLimitBad, gdepOffsetBad, gdepDefaults, rfl,
   cgLimitBad, cgOffsetBad, cgDefaults, rfl,
   fcdLimitBad, fcdOffsetBad, fcdDefaults, rfl,
   tsuLimitBad, tsuOffsetBad, tsuDefaults, rfl,
   focLimitBad, focOffsetBad, focDefaults, rfl⟩

/-- Witness for C1: a limit of 101 is rejected by searchSymbols and a
negative offset is rejected by getDependents, instantiating the rejection
conjuncts at concrete inputs. -/
theorem c1_pagination_bounds_witness :
    searchSymbolsParamsSchema
      (.jobj [("query", .jstr "a"), ("limit", .jnum 101)]) = none ∧
    getDependentsParamsSchema
      (.jobj [("filePath", .jstr "a.ts"), ("offset", .jnum (-1))]) = none :=
  ⟨c1_pagination_bounds.1 [("query", .jstr "a"), ("limit", .jnum 101)]
      (.jnum 101) rfl (by decide),
   c1_pagination_bounds.2.2.2.2.2.2.2.2.2.1
      [("filePath", .jstr "a.ts"), ("offset", .jnum (-1))]
      (.jnum (-1)) rfl (by decide)⟩

/-- Every value the pagination-metadata schema accepts has nonnegative
integer counts and offsets. -/
theorem pmSound (fs : List (String × Json)) (p : PaginationMetadata)
    (hp : paginationMetadataSchema (.jobj fs) = some p) :
    0 ≤ p.total ∧ 0 ≤ p.returned ∧
    (∀ n, p.nextOffset = some n → 0 ≤ n) ∧
    (∀ n, p.currentOffset = some n → 0 ≤ n) := by
  rw [paginationMetadataSchema, show asObj (.jobj fs) = some fs from rfl,
    Option.some_bind] at hp
  simp only [Option.bind_eq_some, Option.some.injEq] at hp
  obtain ⟨t, ht, r, hr, hm, hhm, no1, hno, co, hco, hfin⟩ := hp
  subst hfin
  refine ⟨?_, ?_, ?_, ?_⟩
  · obtain ⟨j, hj, hz⟩ := reqF_eq_some _ _ _ ht
    exact zNonnegInt_sound j t hz
  · obtain ⟨j, hj, hz⟩ := reqF_eq_some _ _ _ hr
    exact zNonnegInt_sound j r hz
  · intro n hn
    have hn2 : no1 = some n := hn
    rw [hn2] at hno
    obtain ⟨j, hj, hz⟩ := optF_eq_some_some _ _ _ hno
    exact zNonnegInt_sound j n hz
  · intro n hn
    have hn2 : co = some n := hn
    rw [hn2] at hco
    obtain ⟨j, hj, hz⟩ := optF_eq_some_some _ _ _ hco
    exact zNonnegInt_sound j n hz

/-- C2 counterexample: the pagination-metadata schema accepts a value whose
`hasMore` is false although `currentOffset + returned < total`, so an
accepted value need not satisfy the pagination invariant. -/
theorem c2_pagination_invariant_cex :
    paginationMetadataSchema cexPaginationJson = some cexPaginationValue ∧
    cexPaginationValue.currentOffset = some 0 ∧
    ¬(cexPaginationValue.hasMore = true ↔
      0 + cexPaginationValue.returned < cexPaginationValue.total) :=
  ⟨rfl, rfl, by decide⟩

/-- C2 (amended): the pagination-metadata schema validates only field
shapes — `total` and `returned` are nonnegative integers and the optional
offsets are nonnegative integers — and does not enforce the pagination
invariant, as the accepted invariant-violating value shows. -/
theorem c2_pagination_shape :
    (∀ fs p, paginationMetadataSchema (.jobj fs) = some p →
      0 ≤ p.total ∧ 0 ≤ p.returned ∧
      (∀ n, p.nextOffset = some n → 0 ≤ n) ∧
      (∀ n, p.currentOffset = some n → 0 ≤ n)) ∧
    (paginationMetadataSchema cexPaginationJson = some cexPaginationValue ∧
      cexPaginationValue.hasMore = false ∧
      0 + cexPaginationValue.returned < cexPaginationValue.total) :=
  ⟨pmSound, rfl, rfl, by decide⟩

/-- Witness for C2: the shape soundness applied to the concrete accepted
value. -/
theorem c2_pagination_shape_witness : 0 ≤ cexPaginationValue.total :=
  (c2_pagination_shape.1 cexPaginationFields cexPaginationValue rfl).1

/-- getDependencies rejects a present `depth` that fails its chain. -/
theorem gdDepthBad (fs : List (String × Json)) (v : Json)
    (h1 : getKey fs "depth" = some v)
    (h2 : specIsNonnegIntAtMost 10 v = false) :
    getDependenciesParamsSchema (.jobj fs) = none := by
  rw [getDependenciesParamsSchema, show asObj (.jobj fs) = some fs from rfl,
    Option.some_bind]
  apply bind_none_of; intro a1
  rw [h1, optF_some_eq, zNonnegIntMax_none 10 v h2]
  rfl

/-- getDependencies tracks `depth`: a parsed depth is between 0 and 10, and
an absent depth parses to `none`. -/
theorem gdDepthTrack (fs : List (String × Json)) (p : GetDependenciesParams)
    (hp : getDependenciesParamsSchema (.jobj fs) = some p) :
    (∀ d, p.depth = some d → 0 ≤ d ∧ d ≤ 10) ∧
    (getKey fs "depth" = none → p.depth = none) := by
  rw [getDependenciesParamsSchema, show asObj (.jobj fs) = some fs from rfl,
    Option.some_bind] at hp
  simp only [Option.bind_eq_some, Option.some.injEq] at hp
  obtain ⟨a1, h1, a2, h2, a3, h3, a4, h4, l, hl, o, ho, hfin⟩ := hp
  subst hfin
  constructor
  · intro d hd
    have hd2 : a2 = some d := hd
    rw [hd2] at h2
    obtain ⟨j, hj, hz⟩ := optF_eq_some_some _ _ _ h2
    exact zNonnegIntMax_sound 10 j d hz
  · intro hn
    exact optF_none_of _ _ _ h2 hn

/-- getDependents rejects a present `depth` that fails its chain. -/
theorem gdepDepthBad (fs : List (String × Json)) (v : Json)
    (h1 : getKey fs "depth" = some v)
    (h2 : specIsNonnegIntAtMost 10 v = false) :
    getDependentsParamsSchema (.jobj fs) = none := by
  rw [getDependentsParamsSchema, show asObj (.jobj fs) = some fs from rfl,
    Option.some_bind]
  apply bind_none_of; intro a1
  rw [h1, optF_some_eq, zNonnegIntMax_none 10 v h2]
  rfl

/-- getDependents tracks `depth`: a parsed depth is between 0 and 10, and an
absent depth parses to `none`. -/
theorem gdepDepthTrack (fs : List (String × Json)) (p : GetDependentsParams)
    (hp : getDependentsParamsSchema (.jobj fs) = some p) :
    (∀ d, p.depth = some d → 0 ≤ d ∧ d ≤ 10) ∧
    (getKey fs "depth" = none → p.depth = none) := by
  rw [getDependentsParamsSchema, show asObj (.jobj fs) = some fs from rfl,
    Option.some_bind] at hp
  simp only [Option.bind_eq_some, Option.some.injEq] at hp
  obtain ⟨a1, h1, a2, h2, a3, h3, a4, h4, l, hl, o, ho, hfin⟩ := hp
  subst hfin
  constructor
  · intro d hd
    have hd2 : a2 = some d := hd
    rw [hd2] at h2
    obtain ⟨j, hj, hz⟩ := optF_eq_some_some _ _ _ h2
    exact zNonnegIntMax_sound 10 j d hz
  · intro hn
    exact optF_none_of _ _ _ h2 hn

/-- C3: getDependencies and getDependents accept a `depth` exactly when it
is an integer between 0 and 10 — any other present depth is rejected, a
parsed depth lies in the range, depth 0 and depth 10 are accepted, depth 11
is rejected — and an input omitting `depth` parses with no depth set. -/
theorem c3_depth_bounds :
    (∀ fs v, getKey fs "depth" = some v →
      specIsNonnegIntAtMost 10 v = false →
      getDependenciesParamsSchema (.jobj fs) = none) ∧
    (∀ fs p, getDependenciesParamsSchema (.jobj fs) = some p →
      (∀ d, p.depth = some d → 0 ≤ d ∧ d ≤ 10) ∧
      (getKey fs "depth" = none → p.depth = none)) ∧
    (getDependenciesParamsSchema
      (.jobj [("filePath", .jstr "a.ts"), ("depth", .jnum 0)]) =
      some ⟨"a.ts", some 0, none, none, 20, 0⟩) ∧
    (getDependenciesParamsSchema
      (.jobj [("filePath", .jstr "a.ts"), ("depth", .jnum 10)]) =
      some ⟨"a.ts", some 10, none, none, 20, 0⟩) ∧
    (getDependenciesParamsSchema (.jobj [("filePath", .jstr "a.ts")]) =
      some ⟨"a.ts", none, none, none, 20, 0⟩) ∧
    (getDependenciesParamsSchema
      (.jobj [("filePath", .jstr "a.ts"), ("depth", .jnum 11)]) = none) ∧
    (∀ fs v, getKey fs "depth" = some v →
      specIsNonnegIntAtMost 10 v = false →
      getDependentsParamsSchema (.jobj fs) = none) ∧
    (∀ fs p, getDependentsParamsSchema (.jobj fs) = some p →
      (∀ d, p.depth = some d → 0 ≤ d ∧ d ≤ 10) ∧
      (getKey fs "depth" = none → p.depth = none)) ∧
    (getDependentsParamsSchema
      (.jobj [("filePath", .jstr "a.ts"), ("depth", .jnum 0)]) =
      some ⟨"a.ts", some 0, none, none, 20, 0⟩) ∧
    (getDependentsParamsSchema
      (.jobj [("filePath", .jstr "a.ts"), ("depth", .jnum 10)]) =
      some ⟨"a.ts", some 10, none, none, 20, 0⟩) ∧
    (getDependentsParamsSchema (.jobj [("filePath", .jstr "a.ts")]) =
      some ⟨"a.ts", none, none, none, 20, 0⟩) ∧
    (getDependentsParamsSchema
      (.jobj [("filePath", .jstr "a.ts"), ("depth", .jnum 11)]) = none) :=
  ⟨gdDepthBad, gdDepthTrack, rfl, rfl, rfl, rfl,
   gdepDepthBad, gdepDepthTrack, rfl, rfl, rfl, rfl⟩

/-- Witness for C3: a negative depth is rejected by getDependencies, and a
parsed depth 7 lies within the bounds. -/
theorem c3_depth_bounds_witness :
    getDependenciesParamsSchema
      (.jobj [("filePath", .jstr "a.ts"), ("depth", .jnum (-1))]) = none ∧
    (0 ≤ (7 : Int) ∧ (7 : Int) ≤ 10) :=
  ⟨c3_depth_bounds.1 [("filePath", .jstr "a.ts"), ("depth", .jnum (-1))]
      (.jnum (-1)) rfl (by decide),
   (c3_depth_bounds.2.1 [("filePath", .jstr "a.ts"), ("depth", .jnum 7)]
      ⟨"a.ts", some 7, none, none, 20, 0⟩ rfl).1 7 rfl⟩

/-- impactAnalysis accepts every integer depth between 1 and 5, with all
other fields defaulting. -/
theorem iaDepthOk (n : Int) (h1 : 1 ≤ n) (h2 : n ≤ 5) :
    impactAnalysisParamsSchema (.jobj [("depth", .jnum (n : Rat))]) =
      some ⟨none, none, none, none, true, true, n, true, true, true⟩ := by
  simp [impactAnalysisParamsSchema, asObj, getKey, optF, defF, zIntMinMax,
    asNum, intCheck, Rat.num_intCast, Rat.den_intCast, h1, h2]

/-- impactAnalysis rejects a present `depth` that fails its chain. -/
theorem iaDepthBad (fs : List (String × Json)) (v : Json)
    (h1 : getKey fs "depth" = some v)
    (h2 : specIsIntBetween 1 5 v = false) :
    impactAnalysisParamsSchema (.jobj fs) = none := by
  rw [impactAnalysisParamsSchema, show asObj (.jobj fs) = some fs from rfl,
    Option.some_bind]
  apply bind_none_of; intro a1
  apply bind_none_of; intro a2
  apply bind_none_of; intro a3
  apply bind_none_of; intro a4
  apply bind_none_of; intro a5
  apply bind_none_of; intro a6
  rw [h1, defF_some_eq, zIntMinMax_none 1 5 v h2, Option.none_bind]

/-- C4 counterexample: depth 0 is an integer no greater than the limit of 5,
yet the impactAnalysis parameter schema rejects it (its chain requires
`min(1)`). -/
theorem c4_impact_depth_cex :
    impactAnalysisParamsSchema (.jobj [("depth", .jnum 0)]) = none ∧
    (0 : Int) ≤ 5 :=
  ⟨rfl, by decide⟩

/-- C4 (amended): the impactAnalysis parameter schema accepts every integer
depth between 1 and its limit of 5 and rejects every depth outside that
range (in particular any depth greater than 5); an input omitting depth
parses with depth 3, and the five boolean toggles default to true. -/
theorem c4_impact_depth :
    (∀ n : Int, 1 ≤ n → n ≤ 5 →
      impactAnalysisParamsSchema (.jobj [("depth", .jnum (n : Rat))]) =
        some ⟨none, none, none, none, true, true, n, true, true, true⟩) ∧
    (∀ fs v, getKey fs "depth" = some v → specIsIntBetween 1 5 v = false →
      impactAnalysisParamsSchema (.jobj fs) = none) ∧
    (impactAnalysisParamsSchema (.jobj []) =
      some ⟨none, none, none, none, true, true, 3, true, true, true⟩) :=
  ⟨iaDepthOk, iaDepthBad, rfl⟩

/-- Witness for C4: depth 5 is accepted with defaults and depth 6 is
rejected. -/
theorem c4_impact_depth_witness :
    impactAnalysisParamsSchema (.jobj [("depth", .jnum ((5 : Int) : Rat))]) =
      some ⟨none, none, none, none, true, true, 5, true, true, true⟩ ∧
    impactAnalysisParamsSchema (.jobj [("depth", .jnum 6)]) = none :=
  ⟨c4_impact_depth.1 5 (by decide) (by decide),
   c4_impact_depth.2.1 [("depth", .jnum 6)] (.jnum 6) rfl (by decide)⟩

/-- C5 counterexample: the symbol-kind schema accepts the string
`decorator`, which is not among the seventeen kinds the specification
enumerates. -/
theorem c5_symbol_kinds_cex :
    symbolKindCategorySchema (.jstr "decorator") = some "decorator" ∧
    "decorator" ∉ specSeventeenKinds :=
  ⟨rfl, by decide⟩

/-- C5 (amended): the symbol-kind schema accepts a string exactly when it is
one of the eighteen kinds enumerated in the code — the spec's seventeen
plus `decorator`. -/
theorem c5_symbol_kinds (s : String) :
    symbolKindCategorySchema (.jstr s) = some s ↔
      s ∈ ["function", "class", "interface", "type", "variable", "constant",
        "enum", "module", "namespace", "method", "property", "parameter",
        "constructor", "decorator", "trait", "struct", "macro", "unknown"] := by
  rw [symbolKindCategorySchema, zEnum_jstr]
  by_cases h : s ∈ symbolKindCategories
  · rw [if_pos h]
    simpa [symbolKindCategories] using h
  · rw [if_neg h]
    simp only [symbolKindCategories] at h
    simp [h]

/-- C6: the import-type schema accepts a string exactly when it is one of
the five import types; every accepted import resolution carries one of those
five types, and a resolution omitting the optional `resolvedPath` is
accepted with a string source and boolean isExternal flag. -/
theorem c6_import_resolution :
    (∀ s, importTypeSchema (.jstr s) = some s ↔
      s ∈ ["relative", "workspace", "alias", "external", "builtin"]) ∧
    (∀ j t, importTypeSchema j = some t →
      j = .jstr t ∧ t ∈ ["relative", "workspace", "alias", "external",
        "builtin"]) ∧
    (∀ fs p, importResolutionSchema (.jobj fs) = some p →
      p.importType ∈ ["relative", "workspace", "alias", "external",
        "builtin"]) ∧
    (importResolutionSchema (.jobj [("source", .jstr "./a"),
        ("isExternal", .jbool false), ("importType", .jstr "relative")]) =
      some ⟨"./a", none, false, "relative"⟩) := by
  refine ⟨?_, ?_, ?_, rfl⟩
  · intro s
    rw [importTypeSchema, zEnum_jstr]
    by_cases h : s ∈ importTypes
    · rw [if_pos h]
      simpa [importTypes] using h
    · rw [if_neg h]
      simp only [importTypes] at h
      simp [h]
  · intro j t h
    exact zEnum_sound importTypes j t h
  · intro fs p hp
    rw [importResolutionSchema, show asObj (.jobj fs) = some fs from rfl,
      Option.some_bind] at hp
    simp only [Option.bind_eq_some, Option.some.injEq] at hp
    obtain ⟨src, hsrc, rp, hrp, ie, hie, it, hit, hfin⟩ := hp
    subst hfin
    obtain ⟨j, hj, hz⟩ := reqF_eq_some _ _ _ hit
    exact (zEnum_sound importTypes j it hz).2

/-- Witness for C6: the accepted concrete resolution carries one of the
five import types. -/
theorem c6_import_resolution_witness :
    ("relative" : String) ∈ ["relative", "workspace", "alias", "external",
      "builtin"] :=
  c6_import_resolution.2.2.1 [("source", .jstr "./a"),
    ("isExternal", .jbool false), ("importType", .jstr "relative")]
    ⟨"./a", none, false, "relative"⟩ rfl

/-- A relationship summary missing any of its three required fields fails
to parse. -/
theorem rsMissingField (fs2 : List (String × Json))
    (h : getKey fs2 "totalCreated" = none ∨ getKey fs2 "totalFailed" = none ∨
      getKey fs2 "filesWithFailures" = none) :
    relationshipSummarySchema (.jobj fs2) = none := by
  rw [relationshipSummarySchema, show asObj (.jobj fs2) = some fs2 from rfl,
    Option.some_bind]
  rcases h with h | h | h
  · rw [h, reqF_none_eq, Option.none_bind]
  · apply bind_none_of; intro a1
    rw [h, reqF_none_eq, Option.none_bind]
  · apply bind_none_of; intro a1
    apply bind_none_of; intro a2
    rw [h, reqF_none_eq, Option.none_bind]

/-- The indexing response rejects inputs whose relationships summary is
absent or incomplete. -/
theorem irRelationshipsBad (fs : List (String × Json))
    (h : getKey fs "relationships" = none ∨
      ∃ fs2, getKey fs "relationships" = some (.jobj fs2) ∧
        (getKey fs2 "totalCreated" = none ∨ getKey fs2 "totalFailed" = none ∨
          getKey fs2 "filesWithFailures" = none)) :
    indexingResponseSchema (.jobj fs) = none := by
  rw [indexingResponseSchema, show asObj (.jobj fs) = some fs from rfl,
    Option.some_bind]
  apply bind_none_of; intro a1
  apply bind_none_of; intro a2
  apply bind_none_of; intro a3
  apply bind_none_of; intro a4
  apply bind_none_of; intro a5
  rcases h with h | ⟨fs2, h, h2⟩
  · rw [h, reqF_none_eq, Option.none_bind]
  · rw [h, reqF_some_eq, rsMissingField fs2 h2, Option.none_bind]

/-- The indexing response rejects a bad `processed` count. -/
theorem irProcessedBad (fs : List (String × Json)) (v : Json)
    (h1 : getKey fs "processed" = some v) (h2 : specIsNonnegInt v = false) :
    indexingResponseSchema (.jobj fs) = none := by
  rw [indexingResponseSchema, show asObj (.jobj fs) = some fs from rfl,
    Option.some_bind]
  rw [h1, reqF_some_eq, zNonnegInt_none v h2, Option.none_bind]

/-- The indexing response rejects a bad `failed` count. -/
theorem irFailedBad (fs : List (String × Json)) (v : Json)
    (h1 : getKey fs "failed" = some v) (h2 : specIsNonnegInt v = false) :
    indexingResponseSchema (.jobj fs) = none := by
  rw [indexingResponseSchema, show asObj (.jobj fs) = some fs from rfl,
    Option.some_bind]
  apply bind_none_of; intro a1
  rw [h1, reqF_some_eq, zNonnegInt_none v h2, Option.none_bind]

/-- Every accepted indexing response has nonnegative processed and failed
counts. -/
theorem irCountsSound (fs : List (String × Json)) (p : IndexingResponse)
    (hp : indexingResponseSchema (.jobj fs) = some p) :
    0 ≤ p.processed ∧ 0 ≤ p.failed := by
  rw [indexingResponseSchema, show asObj (.jobj fs) = some fs from rfl,
    Option.some_bind] at hp
  simp only [Option.bind_eq_some, Option.some.injEq] at hp
  obtain ⟨pr, hpr, fl, hfl, pid, hpid, bn, hbn, ff, hff, rel, hrel,
    hfin⟩ := hp
  subst hfin
  constructor
  · obtain ⟨j, hj, hz⟩ := reqF_eq_some _ _ _ hpr
    exact zNonnegInt_sound j pr hz
  · obtain ⟨j, hj, hz⟩ := reqF_eq_some _ _ _ hfl
    exact zNonnegInt_sound j fl hz

/-- Every accepted relationship-failure entry has nonnegative counts. -/
theorem rfCountsSound (fs : List (String × Json)) (p : RelationshipFailure)
    (hp : relationshipFailureSchema (.jobj fs) = some p) :
    0 ≤ p.failedCount ∧ 0 ≤ p.createdCount := by
  rw [relationshipFailureSchema, show asObj (.jobj fs) = some fs from rfl,
    Option.some_bind] at hp
  simp only [Option.bind_eq_some, Option.some.injEq] at hp
  obtain ⟨f, hf, fc, hfc, cc, hcc, it, hit, hfin⟩ := hp
  subst hfin
  constructor
  · obtain ⟨j, hj, hz⟩ := reqF_eq_some _ _ _ hfc
    exact zNonnegInt_sound j fc hz
  · obtain ⟨j, hj, hz⟩ := reqF_eq_some _ _ _ hcc
    exact zNonnegInt_sound j cc hz

/-- C7: the indexing response schema rejects a response that omits the
relationships summary or any of its three fields, rejects a `processed` or
`failed` that is not a nonnegative integer, accepts a response that omits
`failedFiles`, and every accepted relationship-failure entry carries
nonnegative integer `failedCount` and `createdCount` with a boolean
`isTransient` flag. -/
theorem c7_indexing_response :
    (∀ fs, (getKey fs "relationships" = none ∨
      ∃ fs2, getKey fs "relationships" = some (.jobj fs2) ∧
        (getKey fs2 "totalCreated" = none ∨ getKey fs2 "totalFailed" = none ∨
          getKey fs2 "filesWithFailures" = none)) →
      indexingResponseSchema (.jobj fs) = none) ∧
    (∀ fs v, getKey fs "processed" = some v → specIsNonnegInt v = false →
      indexingResponseSchema (.jobj fs) = none) ∧
    (∀ fs v, getKey fs "failed" = some v → specIsNonnegInt v = false →
      indexingResponseSchema (.jobj fs) = none) ∧
    (∀ fs p, indexingResponseSchema (.jobj fs) = some p →
      0 ≤ p.processed ∧ 0 ≤ p.failed) ∧
    (∀ fs p, relationshipFailureSchema (.jobj fs) = some p →
      0 ≤ p.failedCount ∧ 0 ≤ p.createdCount) ∧
    (indexingResponseSchema exIndexingJson = some exIndexingValue ∧
      exIndexingValue.failedFiles = none) :=
  ⟨irRelationshipsBad, irProcessedBad, irFailedBad, irCountsSound,
   rfCountsSound, rfl, rfl⟩

/-- Witness for C7: a response without a relationships summary is rejected,
and the accepted example has nonnegative counts. -/
theorem c7_indexing_response_witness :
    indexingResponseSchema (.jobj [("processed", .jnum 1)]) = none ∧
    (0 ≤ exIndexingValue.processed ∧ 0 ≤ exIndexingValue.failed) :=
  ⟨c7_indexing_response.1 [("processed", .jnum 1)] (Or.inl rfl),
   c7_indexing_response.2.2.2.1 exIndexingFields exIndexingValue rfl⟩

/-- C8: the strict ping parameter schema accepts an object exactly when it
has no keys — any present key, known or unknown, is rejected, unlike the
other executor schemas which strip unknown keys (getDependencies accepts an
input with an unknown key) — and the ping result schema accepts an object
exactly when its `pong` field is the JSON literal `true`. -/
theorem c8_ping :
    (∀ fs, pingParamsSchema (.jobj fs) = some () ↔ fs = []) ∧
    (∀ fs r, pingResultSchema (.jobj fs) = some r →
      getKey fs "pong" = some (.jbool true) ∧ r.pong = true) ∧
    (∀ fs, getKey fs "pong" = some (.jbool true) →
      pingResultSchema (.jobj fs) = some ⟨true⟩) ∧
    (pingParamsSchema (.jobj [("unknownKey", .jnum 1)]) = none) ∧
    (getDependenciesParamsSchema
      (.jobj [("filePath", .jstr "a.ts"), ("unknownKey", .jnum 1)]) =
      some ⟨"a.ts", none, none, none, 20, 0⟩) := by
  refine ⟨?_, ?_, ?_, rfl, rfl⟩
  · intro fs
    cases fs with
    | nil => simp [pingParamsSchema]
    | cons kv rest => simp [pingParamsSchema]
  · intro fs r hp
    rw [pingResultSchema, show asObj (.jobj fs) = some fs from rfl,
      Option.some_bind] at hp
    simp only [Option.bind_eq_some, Option.some.injEq] at hp
    obtain ⟨pg, hpg, hfin⟩ := hp
    subst hfin
    obtain ⟨j, hj, hz⟩ := reqF_eq_some _ _ _ hpg
    obtain ⟨hjb, hpgt⟩ := zLitTrue_sound j pg hz
    exact ⟨hjb ▸ hj, hpgt⟩
  · intro fs h
    rw [pingResultSchema, show asObj (.jobj fs) = some fs from rfl,
      Option.some_bind, h, reqF_some_eq]
    rfl

/-- Witness for C8: the empty object is accepted by ping and an object with
`pong: true` plus an extra key is accepted by the result schema. -/
theorem c8_ping_witness :
    pingParamsSchema (.jobj []) = some () ∧
    pingResultSchema
      (.jobj [("pong", .jbool true), ("extra", .jnum 1)]) = some ⟨true⟩ :=
  ⟨(c8_ping.1 []).mpr rfl,
   c8_ping.2.2.1 [("pong", .jbool true), ("extra", .jnum 1)] rfl⟩

/-- findCircularDependencies rejects a present `minCycleLength` that fails
its chain. -/
theorem fcdMinBad (fs : List (String × Json)) (v : Json)
    (h1 : getKey fs "minCycleLength" = some v)
    (h2 : specIsIntBetween 2 10 v = false) :
    findCircularDependenciesParamsSchema (.jobj fs) = none := by
  rw [findCircularDependenciesParamsSchema,
    show asObj (.jobj fs) = some fs from rfl, Option.some_bind]
  apply bind_none_of; intro a1
  rw [h1, optF_some_eq, zIntMinMax_none 2 10 v h2]
  rfl

/-- findCircularDependencies rejects a present `maxCycleLength` that fails
its chain. -/
theorem fcdMaxBad (fs : List (String × Json)) (v : Json)
    (h1 : getKey fs "maxCycleLength" = some v)
    (h2 : specIsIntBetween 2 10 v = false) :
    findCircularDependenciesParamsSchema (.jobj fs) = none := by
  rw [findCircularDependenciesParamsSchema,
    show asObj (.jobj fs) = some fs from rfl, Option.some_bind]
  apply bind_none_of; intro a1
  apply bind_none_of; intro a2
  rw [h1, optF_some_eq, zIntMinMax_none 2 10 v h2]
  rfl

/-- Parsed cycle-length bounds both lie between 2 and 10. -/
theorem fcdTrack (fs : List (String × Json))
    (p : FindCircularDependenciesParams)
    (hp : findCircularDependenciesParamsSchema (.jobj fs) = some p) :
    (∀ n, p.minCycleLength = some n → 2 ≤ n ∧ n ≤ 10) ∧
    (∀ n, p.maxCycleLength = some n → 2 ≤ n ∧ n ≤ 10) := by
  rw [findCircularDependenciesParamsSchema,
    show asObj (.jobj fs) = some fs from rfl, Option.some_bind] at hp
  simp only [Option.bind_eq_some, Option.some.injEq] at hp
  obtain ⟨a1, h1, mn, hmn, mx, hmx, l, hl, o, ho, a6, h6, a7, h7, hfin⟩ := hp
  subst hfin
  constructor
  · intro n hn
    have hn2 : mn = some n := hn
    rw [hn2] at hmn
    obtain ⟨j, hj, hz⟩ := optF_eq_some_some _ _ _ hmn
    exact zIntMinMax_sound 2 10 j n hz
  · intro n hn
    have hn2 : mx = some n := hn
    rw [hn2] at hmx
    obtain ⟨j, hj, hz⟩ := optF_eq_some_some _ _ _ hmx
    exact zIntMinMax_sound 2 10 j n hz

/-- C9: findCircularDependencies validates `minCycleLength` and
`maxCycleLength` independently as integers between 2 and 10, with no
cross-field constraint: the input with minCycleLength 10 and maxCycleLength
2 parses successfully. -/
theorem c9_cycle_lengths :
    (∀ fs v, getKey fs "minCycleLength" = some v →
      specIsIntBetween 2 10 v = false →
      findCircularDependenciesParamsSchema (.jobj fs) = none) ∧
    (∀ fs v, getKey fs "maxCycleLength" = some v →
      specIsIntBetween 2 10 v = false →
      findCircularDependenciesParamsSchema (.jobj fs) = none) ∧
    (∀ fs p, findCircularDependenciesParamsSchema (.jobj fs) = some p →
      (∀ n, p.minCycleLength = some n → 2 ≤ n ∧ n ≤ 10) ∧
      (∀ n, p.maxCycleLength = some n → 2 ≤ n ∧ n ≤ 10)) ∧
    (findCircularDependenciesParamsSchema
      (.jobj [("minCycleLength", .jnum 10), ("maxCycleLength", .jnum 2)]) =
      some ⟨none, some 10, some 2, 50, 0, none, none⟩) :=
  ⟨fcdMinBad, fcdMaxBad, fcdTrack, rfl⟩

/-- Witness for C9: cycle length 11 is rejected and cycle length 1 is
rejected, at concrete inputs. -/
theorem c9_cycle_lengths_witness :
    findCircularDependenciesParamsSchema
      (.jobj [("minCycleLength", .jnum 11)]) = none ∧
    findCircularDependenciesParamsSchema
      (.jobj [("maxCycleLength", .jnum 1)]) = none :=
  ⟨c9_cycle_lengths.1 [("minCycleLength", .jnum 11)] (.jnum 11) rfl
      (by decide),
   c9_cycle_lengths.2.1 [("maxCycleLength", .jnum 1)] (.jnum 1) rfl
      (by decide)⟩

/-- C10: the response-envelope type guards are exact and complementary —
isSuccessResponse holds exactly when the success discriminant is true,
isErrorResponse is its negation, and exactly one of the two guards holds
for every envelope. -/
theorem c10_response_guards {T : Type} (r : ApiResponse T) :
    (isSuccessResponse r = true ↔ r.successFlag = true) ∧
    isErrorResponse r = !isSuccessResponse r ∧
    ((isSuccessResponse r = true ∧ isErrorResponse r = false) ∨
      (isSuccessResponse r = false ∧ isErrorResponse r = true)) := by
  cases r <;>
    simp [isSuccessResponse, isErrorResponse, ApiResponse.successFlag]

/-- Witness for C5: the kind `function` is accepted, via the
characterization at a concrete string. -/
theorem c5_symbol_kinds_witness :
    symbolKindCategorySchema (.jstr "function") = some "function" :=
  (c5_symbol_kinds "function").mpr (by decide)

/-- Witness for C10: the guards evaluated on a concrete success envelope. -/
theorem c10_response_guards_witness :
    isErrorResponse (ApiResponse.success (0 : Int)) =
      !isSuccessResponse (ApiResponse.success (0 : Int)) :=
  (c10_response_guards (ApiResponse.success (0 : Int))).2.1
